import Mathlib

/-! Verification of the FocusGuard session-tracking core.

The embedding translates the session-tracking hook (the later version, with
countdown and notifications) into a pure state machine.  Wall-clock instants
are rationals measured in milliseconds (the JavaScript code uses Date.now(),
an integer millisecond count; divisions by 1000 produce fractional seconds,
represented exactly in the rationals).  Each React useState / useRef cell
becomes a field of the Tracker structure; setState calls become functional
record updates applied in program order.  Calls to the notification
collaborator and to stopSession are recorded in an event log so that notified
and stopped counts are observable.  JavaScript truthiness tests on the
timestamp refs (a null ref and a ref holding 0 are both falsy) are modeled
literally.
-/

namespace FocusGuard

/-- Classification labels, the values of currentStateRef in the source. -/
inductive FocusState
  | focused
  | distracted
  | away
  deriving DecidableEq, Repr

/-- A detection event as consumed by updateFocusState: the faceDetected flag
and the confidence value (confidence is read only when faceDetected holds). -/
structure DetectionEvent where
  faceDetected : Bool
  confidence : ℚ
  deriving DecidableEq, Repr

/-- Session type identifiers from the SESSION_TYPES constant table. -/
inductive SType
  | pomodoro
  | deepWork
  | shortSprint
  | custom
  deriving DecidableEq, Repr

/-- The configuration object passed to startSession: a session type and a
target duration in whole seconds. -/
structure SessionConfig where
  stype : SType
  duration : ℕ
  deriving DecidableEq, Repr

/-- Observable events: a come-back notification (tagged with the instant it
fired), a session-complete notification, and an invocation of stopSession. -/
inductive Evt
  | comeBack (now : ℚ)
  | sessionComplete
  | stopCall
  deriving DecidableEq, Repr

/-- The tracker state: one field per useState / useRef cell of the later
session hook.  liveTickIntervals counts the 1 Hz intervals currently
scheduled (startSession overwrites intervalRef without clearing the previous
interval, so more than one can be live); tickRefArmed records whether
intervalRef currently holds an interval id.  Likewise for the 30-minute water
reminder interval.  events is the instrumentation log, newest first. -/
structure Tracker where
  sessionActive : Bool
  sessionStartTime : Option ℚ
  sessionDuration : ℕ
  focusedTime : ℚ
  distractedTime : ℚ
  awayTime : ℚ
  sessionType : Option SType
  targetDuration : ℕ
  remainingTime : ℕ
  awayStartTime : Option ℚ
  awayNotificationShown : Bool
  currentState : FocusState
  lastUpdateTime : Option ℚ
  liveTickIntervals : ℕ
  tickRefArmed : Bool
  liveWaterIntervals : ℕ
  waterRefArmed : Bool
  events : List Evt
  deriving DecidableEq, Repr

/-- The state before any session was ever started: every useState initial
value and every ref initialized to null / away / zero. -/
def init : Tracker where
  sessionActive := false
  sessionStartTime := none
  sessionDuration := 0
  focusedTime := 0
  distractedTime := 0
  awayTime := 0
  sessionType := none
  targetDuration := 0
  remainingTime := 0
  awayStartTime := none
  awayNotificationShown := false
  currentState := .away
  lastUpdateTime := none
  liveTickIntervals := 0
  tickRefArmed := false
  liveWaterIntervals := 0
  waterRefArmed := false
  events := []

/-- Classification of a detection event, lines 129-133 of the hook:
away when no face is detected, otherwise focused when confidence is at
least 0.6 and distracted below. -/
def classify (e : DetectionEvent) : FocusState :=
  if e.faceDetected then
    if 6 / 10 ≤ e.confidence then .focused else .distracted
  else .away

/-- startSession, lines 50-89: set every session field, reset the
accumulators and the classification to away, record the start instant in
lastUpdateTimeRef, and schedule a fresh 1 Hz interval and a fresh water
interval.  The interval refs are overwritten; any interval they previously
held stays scheduled, hence the live counters increase. -/
def startStep (cfg : SessionConfig) (now : ℚ) (s : Tracker) : Tracker :=
  { s with
    sessionActive := true
    sessionStartTime := some now
    sessionType := some cfg.stype
    targetDuration := cfg.duration
    remainingTime := cfg.duration
    sessionDuration := 0
    focusedTime := 0
    distractedTime := 0
    awayTime := 0
    awayStartTime := none
    awayNotificationShown := false
    currentState := .away
    lastUpdateTime := some now
    liveTickIntervals := s.liveTickIntervals + 1
    tickRefArmed := true
    liveWaterIntervals := s.liveWaterIntervals + 1
    waterRefArmed := true }

/-- stopSession, lines 95-119: clear the active flag, clear whichever
intervals the refs currently reference (and only those), and reset the
away-notification guard.  The accumulators, duration and timestamps are left
untouched.  The invocation itself is logged as a stopCall event. -/
def stopStep (s : Tracker) : Tracker :=
  { s with
    sessionActive := false
    liveTickIntervals :=
      if s.tickRefArmed then s.liveTickIntervals - 1 else s.liveTickIntervals
    tickRefArmed := false
    liveWaterIntervals :=
      if s.waterRefArmed then s.liveWaterIntervals - 1 else s.liveWaterIntervals
    waterRefArmed := false
    awayStartTime := none
    awayNotificationShown := false
    events := Evt.stopCall :: s.events }

/-- handleSessionComplete, lines 35-43: fire the session-complete
notification, then stopSession. -/
def handleSessionComplete (s : Tracker) : Tracker :=
  stopStep { s with events := Evt.sessionComplete :: s.events }

/-- One invocation of the 1 Hz interval callback, lines 69-78.  A callback
only runs while at least one interval is live.  The remaining-time updater
completes the session when the previous value is at most 1 (returning 0) and
otherwise decrements; the duration updater then increments unconditionally. -/
def tickStep (s : Tracker) : Tracker :=
  if s.liveTickIntervals = 0 then s
  else
    let s1 :=
      if s.remainingTime ≤ 1 then { handleSessionComplete s with remainingTime := 0 }
      else { s with remainingTime := s.remainingTime - 1 }
    { s1 with sessionDuration := s1.sessionDuration + 1 }

/-- Crediting of the elapsed delta to the bucket of the classification held
before the update, lines 141-147. -/
def credit (st : FocusState) (delta : ℚ) (s : Tracker) : Tracker :=
  match st with
  | .focused => { s with focusedTime := s.focusedTime + delta }
  | .distracted => { s with distractedTime := s.distractedTime + delta }
  | .away => { s with awayTime := s.awayTime + delta }

/-- The away-notification block, lines 149-171.  On an away classification:
when awayStartTime is falsy (null, or the instant 0) it is set to now;
otherwise, when the open away period has lasted at least 10 seconds and no
notification fired for it yet, the come-back notification fires and the
shown flag is set.  On a non-away classification the period and the flag are
cleared. -/
def awayNotify (newState : FocusState) (now : ℚ) (s : Tracker) : Tracker :=
  if newState = .away then
    match s.awayStartTime with
    | none => { s with awayStartTime := some now }
    | some t0 =>
      if t0 = 0 then { s with awayStartTime := some now }
      else if 10 ≤ (now - t0) / 1000 ∧ s.awayNotificationShown = false then
        { s with
          events := Evt.comeBack now :: s.events
          awayNotificationShown := true }
      else s
  else { s with awayStartTime := none, awayNotificationShown := false }

/-- updateFocusState, lines 125-176.  A no-op unless the session is active
and lastUpdateTimeRef is truthy (non-null and nonzero).  Otherwise: classify
the event, credit the wall-clock delta since the last update to the bucket of
the prior classification, run the away-notification block, and advance the
classification ref and the last-update ref. -/
def updateStep (e : DetectionEvent) (now : ℚ) (s : Tracker) : Tracker :=
  match s.lastUpdateTime with
  | none => s
  | some tl =>
    if s.sessionActive = false ∨ tl = 0 then s
    else
      let newState := classify e
      let delta := (now - tl) / 1000
      let s1 := credit s.currentState delta s
      let s2 := awayNotify newState now s1
      { s2 with currentState := newState, lastUpdateTime := some now }

/-- The derived focus score, lines 179-181: focusedTime over sessionDuration
as a percentage, and 0 for a zero duration. -/
def focusScore (s : Tracker) : ℚ :=
  if 0 < s.sessionDuration then s.focusedTime / (s.sessionDuration : ℚ) * 100
  else 0

/-- Operations a driver can perform on the tracker: the public commands plus
a delivery of the interval callback. -/
inductive Op
  | startOp (cfg : SessionConfig) (now : ℚ)
  | stopOp
  | updateOp (e : DetectionEvent) (now : ℚ)
  | tickOp
  deriving DecidableEq, Repr

/-- Apply one operation. -/
def applyOp (op : Op) (s : Tracker) : Tracker :=
  match op with
  | .startOp cfg now => startStep cfg now s
  | .stopOp => stopStep s
  | .updateOp e now => updateStep e now s
  | .tickOp => tickStep s

/-- Run a sequence of operations in arrival order. -/
def run : List Op → Tracker → Tracker
  | [], s => s
  | op :: rest, s => run rest (applyOp op s)

/-- Count of come-back notifications in an event log. -/
def countComeBack (l : List Evt) : ℕ :=
  (l.filter fun ev => match ev with | .comeBack _ => true | _ => false).length

/-- Count of session-complete notifications in an event log. -/
def countComplete (l : List Evt) : ℕ :=
  (l.filter fun ev => match ev with | .sessionComplete => true | _ => false).length

/-- Count of stopSession invocations in an event log. -/
def countStop (l : List Evt) : ℕ :=
  (l.filter fun ev => match ev with | .stopCall => true | _ => false).length

/-- Sum of the three time buckets. -/
def sumAcc (s : Tracker) : ℚ :=
  s.focusedTime + s.distractedTime + s.awayTime

/-- The explicit condition under which one updateFocusState call fires the
come-back notification: active session, truthy last-update ref, event
classified away, an open away period with a truthy start more than 10 seconds
old, and no notification fired yet for that period. -/
def comeBackFires (e : DetectionEvent) (now : ℚ) (s : Tracker) : Bool :=
  match s.lastUpdateTime with
  | none => false
  | some tl =>
    match s.awayStartTime with
    | none => false
    | some t0 =>
      decide (s.sessionActive = true ∧ tl ≠ 0 ∧ classify e = .away ∧ t0 ≠ 0 ∧
        10 ≤ (now - t0) / 1000 ∧ s.awayNotificationShown = false)

/-- A stream of n updates with no face detected, spaced gapMs milliseconds
apart, the first one gapMs after the instant origin. -/
def awayStream (origin gapMs : ℚ) (n : ℕ) : List Op :=
  (List.range n).map fun k => Op.updateOp ⟨false, 0⟩ (origin + gapMs * ((k + 1 : ℕ) : ℚ))

/-- Validity of an operation sequence relative to a lower bound on the clock:
the instants passed to startSession and updateFocusState never decrease
(Date.now() is nondecreasing across successive calls). -/
def validFrom : ℚ → List Op → Bool
  | _, [] => true
  | t, Op.startOp _ now :: rest => decide (t ≤ now) && validFrom now rest
  | t, Op.updateOp _ now :: rest => decide (t ≤ now) && validFrom now rest
  | t, Op.stopOp :: rest => validFrom t rest
  | t, Op.tickOp :: rest => validFrom t rest

/-! The early version of the session hook (src/hooks/useSessionTracking.js):
no session type, no countdown, no away notifications.  Its startSession takes
no configuration and its interval callback only increments the duration. -/

/-- State of the early hook: its useState / useRef cells. -/
structure EarlyTracker where
  sessionActive : Bool
  sessionStartTime : Option ℚ
  sessionDuration : ℕ
  focusedTime : ℚ
  distractedTime : ℚ
  awayTime : ℚ
  currentState : FocusState
  lastUpdateTime : Option ℚ
  liveTickIntervals : ℕ
  tickRefArmed : Bool
  deriving DecidableEq, Repr

/-- The initial state of the early hook. -/
def einit : EarlyTracker where
  sessionActive := false
  sessionStartTime := none
  sessionDuration := 0
  focusedTime := 0
  distractedTime := 0
  awayTime := 0
  currentState := .away
  lastUpdateTime := none
  liveTickIntervals := 0
  tickRefArmed := false

/-- startSession of the early hook, lines 25-42 of its file. -/
def earlyStart (now : ℚ) (s : EarlyTracker) : EarlyTracker :=
  { s with
    sessionActive := true
    sessionStartTime := some now
    sessionDuration := 0
    focusedTime := 0
    distractedTime := 0
    awayTime := 0
    currentState := .away
    lastUpdateTime := some now
    liveTickIntervals := s.liveTickIntervals + 1
    tickRefArmed := true }

/-- Crediting in the early hook, lines 86-92, identical to the later one. -/
def earlyCredit (st : FocusState) (delta : ℚ) (s : EarlyTracker) : EarlyTracker :=
  match st with
  | .focused => { s with focusedTime := s.focusedTime + delta }
  | .distracted => { s with distractedTime := s.distractedTime + delta }
  | .away => { s with awayTime := s.awayTime + delta }

/-- updateFocusState of the early hook, lines 70-97: same guard, same
classification, same prior-state crediting and same ref updates as the later
hook, with no away-notification block. -/
def earlyUpdate (e : DetectionEvent) (now : ℚ) (s : EarlyTracker) : EarlyTracker :=
  match s.lastUpdateTime with
  | none => s
  | some tl =>
    if s.sessionActive = false ∨ tl = 0 then s
    else
      let newState := classify e
      let delta := (now - tl) / 1000
      let s1 := earlyCredit s.currentState delta s
      { s1 with currentState := newState, lastUpdateTime := some now }

/-- The derived focus score of the early hook, lines 100-102. -/
def earlyScore (s : EarlyTracker) : ℚ :=
  if 0 < s.sessionDuration then s.focusedTime / (s.sessionDuration : ℚ) * 100
  else 0

/-- A sequence of calls made identically to both hook versions: start calls
(the early hook ignores the configuration) and detection updates, with shared
clock values. -/
inductive SOp
  | sStart (cfg : SessionConfig) (now : ℚ)
  | sUpdate (e : DetectionEvent) (now : ℚ)
  deriving DecidableEq, Repr

/-- Run a shared call sequence against the early hook. -/
def runEarly : List SOp → EarlyTracker → EarlyTracker
  | [], s => s
  | SOp.sStart _ now :: rest, s => runEarly rest (earlyStart now s)
  | SOp.sUpdate e now :: rest, s => runEarly rest (earlyUpdate e now s)

/-- Run a shared call sequence against the later hook. -/
def runLater : List SOp → Tracker → Tracker
  | [], s => s
  | SOp.sStart cfg now :: rest, s => runLater rest (startStep cfg now s)
  | SOp.sUpdate e now :: rest, s => runLater rest (updateStep e now s)

/-! The custom-duration validation of the session-type modal
(src/components/SessionTypeModal.jsx, handleCustomSubmit), together with a
model of JavaScript parseInt(string, 10): skip leading whitespace, read an
optional sign, then the longest run of leading decimal digits; NaN when that
run is empty, the trailing rest of the string ignored. -/

/-- Longest run of leading decimal digits. -/
def leadingDigits : List Char → List Char
  | [] => []
  | c :: rest => if c.isDigit then c :: leadingDigits rest else []

/-- Numeric value of a digit run, most significant first. -/
def digitsVal : List Char → ℕ → ℕ
  | [], acc => acc
  | c :: rest, acc => digitsVal rest (10 * acc + (c.toNat - 48))

/-- Drop leading whitespace characters. -/
def skipSpaces : List Char → List Char
  | [] => []
  | c :: rest => if c = ' ' ∨ c = '\t' ∨ c = '\n' ∨ c = '\r' then skipSpaces rest else c :: rest

/-- JavaScript parseInt with radix 10, on the character list of the input. -/
def parseIntTenChars (cs : List Char) : Option ℤ :=
  match skipSpaces cs with
  | '-' :: rest =>
    let ds := leadingDigits rest
    if ds = [] then none else some (-(digitsVal ds 0 : ℤ))
  | '+' :: rest =>
    let ds := leadingDigits rest
    if ds = [] then none else some ((digitsVal ds 0 : ℤ))
  | other =>
    let ds := leadingDigits other
    if ds = [] then none else some ((digitsVal ds 0 : ℤ))

/-- JavaScript parseInt with radix 10 on a string. -/
def parseIntTen (str : String) : Option ℤ :=
  parseIntTenChars str.toList

/-- Outcome of handleCustomSubmit: either a rejection carrying the error
message set by the component, or a call to onSelect carrying the selected
session type and duration in seconds. -/
inductive SubmitResult
  | rejected (msg : String)
  | accepted (stype : SType) (durationSeconds : ℤ)
  deriving DecidableEq, Repr

/-- handleCustomSubmit, lines 22-41 of the modal: parseInt the raw input;
reject below 1 minute (or an unparseable input) and above 180 minutes;
otherwise select a custom session of minutes times 60 seconds. -/
def handleCustomSubmit (customDuration : String) : SubmitResult :=
  match parseIntTen customDuration with
  | none => .rejected "Please enter a valid duration (minimum 1 minute)"
  | some m =>
    if m < 1 then .rejected "Please enter a valid duration (minimum 1 minute)"
    else if 180 < m then .rejected "Maximum duration is 180 minutes (3 hours)"
    else .accepted .custom (m * 60)

/-- The tracker fields visible through the snapshot surface (everything the
UI reads), excluding the interval bookkeeping and the event log. -/
def visible (s : Tracker) :
    Bool × Option ℚ × ℕ × ℚ × ℚ × ℚ × Option SType × ℕ × ℕ × Option ℚ × Bool ×
      FocusState × Option ℚ :=
  (s.sessionActive, s.sessionStartTime, s.sessionDuration, s.focusedTime,
    s.distractedTime, s.awayTime, s.sessionType, s.targetDuration,
    s.remainingTime, s.awayStartTime, s.awayNotificationShown, s.currentState,
    s.lastUpdateTime)

/-- Correspondence between a state of the early hook and a state of the later
hook: every field the early hook owns has the same value in both. -/
def Agrees (a : EarlyTracker) (b : Tracker) : Prop :=
  a.sessionActive = b.sessionActive ∧
  a.sessionDuration = b.sessionDuration ∧
  a.focusedTime = b.focusedTime ∧
  a.distractedTime = b.distractedTime ∧
  a.awayTime = b.awayTime ∧
  a.currentState = b.currentState ∧
  a.lastUpdateTime = b.lastUpdateTime

/-- The exact conservation law the accumulators satisfy: their sum equals the
span from the session start to the last processed update, in seconds. -/
def ConsInv (s : Tracker) : Prop :=
  ∀ t0 tl : ℚ, s.sessionStartTime = some t0 → s.lastUpdateTime = some tl →
    sumAcc s = (tl - t0) / 1000

/-! Helper lemmas: which fields each operation leaves untouched, and explicit
descriptions of the branches of updateFocusState. -/

@[simp] theorem applyOp_start (cfg : SessionConfig) (now : ℚ) (s : Tracker) :
    applyOp (Op.startOp cfg now) s = startStep cfg now s := rfl

@[simp] theorem applyOp_stop (s : Tracker) :
    applyOp Op.stopOp s = stopStep s := rfl

@[simp] theorem applyOp_update (e : DetectionEvent) (now : ℚ) (s : Tracker) :
    applyOp (Op.updateOp e now) s = updateStep e now s := rfl

@[simp] theorem applyOp_tick (s : Tracker) :
    applyOp Op.tickOp s = tickStep s := rfl

@[simp] theorem stopStep_focusedTime (s : Tracker) :
    (stopStep s).focusedTime = s.focusedTime := rfl

@[simp] theorem stopStep_distractedTime (s : Tracker) :
    (stopStep s).distractedTime = s.distractedTime := rfl

@[simp] theorem stopStep_awayTime (s : Tracker) :
    (stopStep s).awayTime = s.awayTime := rfl

@[simp] theorem stopStep_sessionStartTime (s : Tracker) :
    (stopStep s).sessionStartTime = s.sessionStartTime := rfl

@[simp] theorem stopStep_lastUpdateTime (s : Tracker) :
    (stopStep s).lastUpdateTime = s.lastUpdateTime := rfl

@[simp] theorem stopStep_sessionDuration (s : Tracker) :
    (stopStep s).sessionDuration = s.sessionDuration := rfl

@[simp] theorem stopStep_currentState (s : Tracker) :
    (stopStep s).currentState = s.currentState := rfl

theorem tickStep_preserves (s : Tracker) :
    (tickStep s).focusedTime = s.focusedTime ∧
    (tickStep s).distractedTime = s.distractedTime ∧
    (tickStep s).awayTime = s.awayTime ∧
    (tickStep s).sessionStartTime = s.sessionStartTime ∧
    (tickStep s).lastUpdateTime = s.lastUpdateTime ∧
    (tickStep s).currentState = s.currentState := by
  unfold tickStep handleSessionComplete
  repeat' split
  all_goals simp

@[simp] theorem tickStep_focusedTime (s : Tracker) :
    (tickStep s).focusedTime = s.focusedTime := (tickStep_preserves s).1

@[simp] theorem tickStep_distractedTime (s : Tracker) :
    (tickStep s).distractedTime = s.distractedTime := (tickStep_preserves s).2.1

@[simp] theorem tickStep_awayTime (s : Tracker) :
    (tickStep s).awayTime = s.awayTime := (tickStep_preserves s).2.2.1

@[simp] theorem tickStep_sessionStartTime (s : Tracker) :
    (tickStep s).sessionStartTime = s.sessionStartTime := (tickStep_preserves s).2.2.2.1

@[simp] theorem tickStep_lastUpdateTime (s : Tracker) :
    (tickStep s).lastUpdateTime = s.lastUpdateTime := (tickStep_preserves s).2.2.2.2.1

@[simp] theorem tickStep_currentState (s : Tracker) :
    (tickStep s).currentState = s.currentState := (tickStep_preserves s).2.2.2.2.2

theorem awayNotify_preserves (ns : FocusState) (now : ℚ) (s : Tracker) :
    (awayNotify ns now s).focusedTime = s.focusedTime ∧
    (awayNotify ns now s).distractedTime = s.distractedTime ∧
    (awayNotify ns now s).awayTime = s.awayTime ∧
    (awayNotify ns now s).sessionStartTime = s.sessionStartTime ∧
    (awayNotify ns now s).lastUpdateTime = s.lastUpdateTime ∧
    (awayNotify ns now s).sessionActive = s.sessionActive ∧
    (awayNotify ns now s).sessionDuration = s.sessionDuration ∧
    (awayNotify ns now s).currentState = s.currentState := by
  unfold awayNotify
  repeat' split
  all_goals simp

@[simp] theorem awayNotify_focusedTime (ns : FocusState) (now : ℚ) (s : Tracker) :
    (awayNotify ns now s).focusedTime = s.focusedTime := (awayNotify_preserves ns now s).1

@[simp] theorem awayNotify_distractedTime (ns : FocusState) (now : ℚ) (s : Tracker) :
    (awayNotify ns now s).distractedTime = s.distractedTime := (awayNotify_preserves ns now s).2.1

@[simp] theorem awayNotify_awayTime (ns : FocusState) (now : ℚ) (s : Tracker) :
    (awayNotify ns now s).awayTime = s.awayTime := (awayNotify_preserves ns now s).2.2.1

@[simp] theorem awayNotify_sessionStartTime (ns : FocusState) (now : ℚ) (s : Tracker) :
    (awayNotify ns now s).sessionStartTime = s.sessionStartTime :=
  (awayNotify_preserves ns now s).2.2.2.1

@[simp] theorem awayNotify_lastUpdateTime (ns : FocusState) (now : ℚ) (s : Tracker) :
    (awayNotify ns now s).lastUpdateTime = s.lastUpdateTime :=
  (awayNotify_preserves ns now s).2.2.2.2.1

@[simp] theorem awayNotify_sessionActive (ns : FocusState) (now : ℚ) (s : Tracker) :
    (awayNotify ns now s).sessionActive = s.sessionActive :=
  (awayNotify_preserves ns now s).2.2.2.2.2.1

@[simp] theorem awayNotify_sessionDuration (ns : FocusState) (now : ℚ) (s : Tracker) :
    (awayNotify ns now s).sessionDuration = s.sessionDuration :=
  (awayNotify_preserves ns now s).2.2.2.2.2.2.1

@[simp] theorem awayNotify_currentState (ns : FocusState) (now : ℚ) (s : Tracker) :
    (awayNotify ns now s).currentState = s.currentState :=
  (awayNotify_preserves ns now s).2.2.2.2.2.2.2

theorem credit_preserves (st : FocusState) (d : ℚ) (s : Tracker) :
    (credit st d s).sessionStartTime = s.sessionStartTime ∧
    (credit st d s).lastUpdateTime = s.lastUpdateTime ∧
    (credit st d s).sessionActive = s.sessionActive ∧
    (credit st d s).sessionDuration = s.sessionDuration ∧
    (credit st d s).currentState = s.currentState ∧
    (credit st d s).awayStartTime = s.awayStartTime ∧
    (credit st d s).awayNotificationShown = s.awayNotificationShown ∧
    (credit st d s).events = s.events := by
  cases st <;> simp [credit]

@[simp] theorem credit_sessionStartTime (st : FocusState) (d : ℚ) (s : Tracker) :
    (credit st d s).sessionStartTime = s.sessionStartTime := (credit_preserves st d s).1

@[simp] theorem credit_lastUpdateTime (st : FocusState) (d : ℚ) (s : Tracker) :
    (credit st d s).lastUpdateTime = s.lastUpdateTime := (credit_preserves st d s).2.1

@[simp] theorem credit_events (st : FocusState) (d : ℚ) (s : Tracker) :
    (credit st d s).events = s.events := (credit_preserves st d s).2.2.2.2.2.2.2

@[simp] theorem credit_awayStartTime (st : FocusState) (d : ℚ) (s : Tracker) :
    (credit st d s).awayStartTime = s.awayStartTime := (credit_preserves st d s).2.2.2.2.2.1

@[simp] theorem credit_awayNotificationShown (st : FocusState) (d : ℚ) (s : Tracker) :
    (credit st d s).awayNotificationShown = s.awayNotificationShown :=
  (credit_preserves st d s).2.2.2.2.2.2.1

theorem sumAcc_credit (st : FocusState) (d : ℚ) (s : Tracker) :
    sumAcc (credit st d s) = sumAcc s + d := by
  cases st <;> simp [credit, sumAcc] <;> ring

theorem updateStep_none (e : DetectionEvent) (now : ℚ) (s : Tracker)
    (h : s.lastUpdateTime = none) : updateStep e now s = s := by
  simp [updateStep, h]

theorem updateStep_guard (e : DetectionEvent) (now : ℚ) (s : Tracker) (tl : ℚ)
    (h : s.lastUpdateTime = some tl) (hg : s.sessionActive = false ∨ tl = 0) :
    updateStep e now s = s := by
  simp [updateStep, h, hg]

theorem updateStep_go (e : DetectionEvent) (now : ℚ) (s : Tracker) (tl : ℚ)
    (h : s.lastUpdateTime = some tl) (ha : s.sessionActive = true) (h0 : tl ≠ 0) :
    updateStep e now s =
      { awayNotify (classify e) now (credit s.currentState ((now - tl) / 1000) s) with
        currentState := classify e, lastUpdateTime := some now } := by
  simp [updateStep, h, ha, h0]

/-- A state predicate preserved by every operation holds after every run. -/
theorem run_inv {P : Tracker → Prop} (h : ∀ op s, P s → P (applyOp op s)) :
    ∀ (ops : List Op) (s : Tracker), P s → P (run ops s)
  | [], _, hs => hs
  | op :: rest, s, hs => run_inv h rest (applyOp op s) (h op s hs)

/-- Every operation preserves the conservation law. -/
theorem consInv_applyOp (op : Op) (s : Tracker) (h : ConsInv s) :
    ConsInv (applyOp op s) := by
  cases op with
  | startOp cfg now =>
    intro t0 tl h1 h2
    simp only [applyOp, startStep] at h1 h2 ⊢
    simp only [Option.some.injEq] at h1 h2
    subst h1; subst h2
    simp [sumAcc]
  | stopOp =>
    intro t0 tl h1 h2
    simp only [applyOp, stopStep_sessionStartTime, stopStep_lastUpdateTime] at h1 h2
    have := h t0 tl h1 h2
    simpa [applyOp, sumAcc] using this
  | tickOp =>
    intro t0 tl h1 h2
    simp only [applyOp, tickStep_sessionStartTime, tickStep_lastUpdateTime] at h1 h2
    have := h t0 tl h1 h2
    simpa [applyOp, sumAcc] using this
  | updateOp e now =>
    intro t0 tl h1 h2
    simp only [applyOp] at h1 h2 ⊢
    cases hl : s.lastUpdateTime with
    | none =>
      rw [updateStep_none e now s hl] at h1 h2 ⊢
      exact h t0 tl h1 h2
    | some tp =>
      by_cases hg : s.sessionActive = false ∨ tp = 0
      · rw [updateStep_guard e now s tp hl hg] at h1 h2 ⊢
        exact h t0 tl h1 h2
      · push_neg at hg
        obtain ⟨ha, h0⟩ := hg
        replace ha : s.sessionActive = true := by
          revert ha; cases s.sessionActive <;> simp
        rw [updateStep_go e now s tp hl ha h0] at h1 h2 ⊢
        simp only [awayNotify_sessionStartTime, credit_sessionStartTime,
          Option.some.injEq] at h1 h2
        subst h2
        have hbase := h t0 tp h1 hl
        have hsum : sumAcc { awayNotify (classify e) now
            (credit s.currentState ((now - tp) / 1000) s) with
            currentState := classify e, lastUpdateTime := some now } =
            sumAcc (credit s.currentState ((now - tp) / 1000) s) := by
          simp [sumAcc]
        rw [hsum, sumAcc_credit, hbase]
        ring

/-- Along any clock-monotone run the three accumulators stay nonnegative:
every credited delta is a difference of a later instant and the last-update
instant, divided by 1000. -/
theorem nonneg_run : ∀ (ops : List Op) (t : ℚ) (s : Tracker),
    validFrom t ops = true →
    0 ≤ s.focusedTime → 0 ≤ s.distractedTime → 0 ≤ s.awayTime →
    (∀ tl : ℚ, s.lastUpdateTime = some tl → tl ≤ t) →
    0 ≤ (run ops s).focusedTime ∧ 0 ≤ (run ops s).distractedTime ∧
      0 ≤ (run ops s).awayTime := by
  intro ops
  induction ops with
  | nil => intro t s _ hf hd ha _; exact ⟨hf, hd, ha⟩
  | cons op rest ih =>
    intro t s hv hf hd ha hb
    cases op with
    | startOp cfg now =>
      simp only [run, applyOp_start]
      simp only [validFrom, Bool.and_eq_true, decide_eq_true_eq] at hv
      refine ih now (startStep cfg now s) hv.2 (by simp [startStep])
        (by simp [startStep]) (by simp [startStep]) ?_
      intro tl h
      simp only [startStep, Option.some.injEq] at h
      exact h ▸ le_refl now
    | stopOp =>
      simp only [run, applyOp_stop]
      simp only [validFrom] at hv
      exact ih t (stopStep s) hv (by simpa using hf) (by simpa using hd)
        (by simpa using ha) (by simpa using hb)
    | tickOp =>
      simp only [run, applyOp_tick]
      simp only [validFrom] at hv
      exact ih t (tickStep s) hv (by simpa using hf) (by simpa using hd)
        (by simpa using ha) (by simpa using hb)
    | updateOp e now =>
      simp only [run, applyOp_update]
      simp only [validFrom, Bool.and_eq_true, decide_eq_true_eq] at hv
      obtain ⟨htn, hv⟩ := hv
      cases hl : s.lastUpdateTime with
      | none =>
        rw [updateStep_none e now s hl]
        refine ih now s hv hf hd ha ?_
        intro tl h; rw [hl] at h; cases h
      | some tp =>
        by_cases hg : s.sessionActive = false ∨ tp = 0
        · rw [updateStep_guard e now s tp hl hg]
          refine ih now s hv hf hd ha ?_
          intro tl h
          rw [hl] at h
          injection h with h
          exact h ▸ le_trans (hb tp hl) htn
        · push_neg at hg
          obtain ⟨hact, h0⟩ := hg
          replace hact : s.sessionActive = true := by
            revert hact; cases s.sessionActive <;> simp
          rw [updateStep_go e now s tp hl hact h0]
          have htp : tp ≤ now := le_trans (hb tp hl) htn
          have hδ : 0 ≤ (now - tp) / 1000 :=
            div_nonneg (sub_nonneg.mpr htp) (by norm_num)
          refine ih now _ hv ?_ ?_ ?_ ?_
          · cases hcs : s.currentState <;> simp [credit, hcs] <;>
              first
              | assumption
              | exact add_nonneg hf hδ
          · cases hcs : s.currentState <;> simp [credit, hcs] <;>
              first
              | assumption
              | exact add_nonneg hd hδ
          · cases hcs : s.currentState <;> simp [credit, hcs] <;>
              first
              | assumption
              | exact add_nonneg ha hδ
          · intro tl h
            simp only [Option.some.injEq] at h
            exact h ▸ le_refl now

/-- The event log after one updateFocusState call: exactly when the
comeBackFires condition holds, one come-back notification is prepended;
nothing else is ever emitted by an update. -/
theorem updateStep_events_eq (e : DetectionEvent) (now : ℚ) (s : Tracker) :
    (updateStep e now s).events =
      if comeBackFires e now s then Evt.comeBack now :: s.events else s.events := by
  cases hl : s.lastUpdateTime with
  | none =>
    rw [updateStep_none e now s hl]
    simp [comeBackFires, hl]
  | some tl =>
    by_cases hg : s.sessionActive = false ∨ tl = 0
    · rw [updateStep_guard e now s tl hl hg]
      cases ha : s.awayStartTime with
      | none => simp [comeBackFires, hl, ha]
      | some t0 =>
        simp only [comeBackFires, hl, ha, if_neg, decide_eq_true_eq]
        rcases hg with hg | hg
        · rw [if_neg]; simp [hg]
        · rw [if_neg]; simp [hg]
    · push_neg at hg
      obtain ⟨hact, h0⟩ := hg
      replace hact : s.sessionActive = true := by
        revert hact; cases s.sessionActive <;> simp
      rw [updateStep_go e now s tl hl hact h0]
      have hev : ({ awayNotify (classify e) now
          (credit s.currentState ((now - tl) / 1000) s) with
          currentState := classify e, lastUpdateTime := some now } : Tracker).events =
          (awayNotify (classify e) now
            (credit s.currentState ((now - tl) / 1000) s)).events := rfl
      rw [hev]
      cases ha : s.awayStartTime with
      | none =>
        simp only [comeBackFires, hl, ha]
        by_cases hcls : classify e = .away
        · simp [awayNotify, hcls, ha]
        · simp [awayNotify, hcls, ha]
      | some t0 =>
        simp only [comeBackFires, hl, ha, decide_eq_true_eq]
        by_cases hcls : classify e = .away
        · by_cases ht0 : t0 = 0
          · simp [awayNotify, hcls, ha, ht0, hact, h0]
          · by_cases hge : 10 ≤ (now - t0) / 1000
            · by_cases hsh : s.awayNotificationShown = false
              · rw [if_pos ⟨hact, h0, hcls, ht0, hge, hsh⟩]
                simp [awayNotify, hcls, ha, ht0, hge, hsh]
              · rw [if_neg (by simp [hsh])]
                simp only [Bool.not_eq_false] at hsh
                simp [awayNotify, hcls, ha, ht0, hge, hsh]
            · rw [if_neg (by simp [hge])]
              simp [awayNotify, hcls, ha, ht0, hge]
        · rw [if_neg (by simp [hcls])]
          simp [awayNotify, hcls, ha]

theorem earlyUpdate_none (e : DetectionEvent) (now : ℚ) (s : EarlyTracker)
    (h : s.lastUpdateTime = none) : earlyUpdate e now s = s := by
  simp [earlyUpdate, h]

theorem earlyUpdate_guard (e : DetectionEvent) (now : ℚ) (s : EarlyTracker) (tl : ℚ)
    (h : s.lastUpdateTime = some tl) (hg : s.sessionActive = false ∨ tl = 0) :
    earlyUpdate e now s = s := by
  simp [earlyUpdate, h, hg]

theorem earlyUpdate_go (e : DetectionEvent) (now : ℚ) (s : EarlyTracker) (tl : ℚ)
    (h : s.lastUpdateTime = some tl) (ha : s.sessionActive = true) (h0 : tl ≠ 0) :
    earlyUpdate e now s =
      { earlyCredit s.currentState ((now - tl) / 1000) s with
        currentState := classify e, lastUpdateTime := some now } := by
  simp [earlyUpdate, h, ha, h0]

theorem agrees_start (cfg : SessionConfig) (now : ℚ) (a : EarlyTracker) (b : Tracker)
    (_ : Agrees a b) : Agrees (earlyStart now a) (startStep cfg now b) := by
  simp [Agrees, earlyStart, startStep]

theorem agrees_update (e : DetectionEvent) (now : ℚ) (a : EarlyTracker) (b : Tracker)
    (h : Agrees a b) : Agrees (earlyUpdate e now a) (updateStep e now b) := by
  obtain ⟨hA, hD, hF, hDi, hAw, hC, hL⟩ := h
  cases hl : b.lastUpdateTime with
  | none =>
    rw [updateStep_none e now b hl, earlyUpdate_none e now a (hL.trans hl)]
    exact ⟨hA, hD, hF, hDi, hAw, hC, hL.trans hl ▸ hL⟩
  | some tl =>
    by_cases hg : b.sessionActive = false ∨ tl = 0
    · rw [updateStep_guard e now b tl hl hg,
        earlyUpdate_guard e now a tl (hL.trans hl) (by rw [hA]; exact hg)]
      exact ⟨hA, hD, hF, hDi, hAw, hC, hL⟩
    · push_neg at hg
      obtain ⟨hact, h0⟩ := hg
      replace hact : b.sessionActive = true := by
        revert hact; cases b.sessionActive <;> simp
      rw [updateStep_go e now b tl hl hact h0,
        earlyUpdate_go e now a tl (hL.trans hl) (hA.trans hact) h0, hC]
      cases hcs : b.currentState <;>
        simp [Agrees, earlyCredit, credit, hcs, hA, hD, hF, hDi, hAw]

theorem agrees_run :
    ∀ (ops : List SOp) (a : EarlyTracker) (b : Tracker),
      Agrees a b → Agrees (runEarly ops a) (runLater ops b)
  | [], _, _, h => h
  | SOp.sStart cfg now :: rest, a, b, h =>
    agrees_run rest _ _ (agrees_start cfg now a b h)
  | SOp.sUpdate e now :: rest, a, b, h =>
    agrees_run rest _ _ (agrees_update e now a b h)

/-! Claim theorems. -/

/-- C1, amended: for every reachable tracker state the sum focusedTime +
distractedTime + awayTime equals (lastUpdateTime − startTime) / 1000 exactly;
since updateFocusState sets lastUpdateTime to the current wall clock, the sum
equals the wall-clock time elapsed since startTime at every instant an update
is processed.  Between updates the sum lags behind the wall clock, so the
original claim (equality at ANY observation point) fails; see the
counterexample. -/
theorem accumulator_sum_eq_update_span (ops : List Op) (t0 tl : ℚ)
    (_hact : (run ops init).sessionActive = true)
    (h1 : (run ops init).sessionStartTime = some t0)
    (h2 : (run ops init).lastUpdateTime = some tl) :
    sumAcc (run ops init) = (tl - t0) / 1000 := by
  have hinv : ConsInv (run ops init) := by
    refine run_inv consInv_applyOp ops init ?_
    intro ta tb hsa _
    simp [init] at hsa
  exact hinv t0 tl h1 h2

/-- Witness for C1: a session started at instant 1000 with one update at
instant 2000 has accumulated exactly one second. -/
theorem accumulator_sum_eq_update_span_witness :
    sumAcc (run [Op.startOp ⟨.pomodoro, 1500⟩ 1000,
      Op.updateOp ⟨true, 9 / 10⟩ 2000] init) = (2000 - 1000) / 1000 :=
  accumulator_sum_eq_update_span
    [Op.startOp ⟨.pomodoro, 1500⟩ 1000, Op.updateOp ⟨true, 9 / 10⟩ 2000]
    1000 2000 (by decide!) (by decide!) (by decide!)

/-- C1 counterexample: in the active session started at instant 1000 with a
single update at instant 2000, the accumulator sum is 1 second, but at the
observation instant 10000 the wall-clock elapsed time since startTime is 9
seconds; the difference of 8 seconds is far beyond a 1e-6 relative
tolerance, refuting conservation at arbitrary observation points. -/
theorem accumulator_conservation_cex :
    (run [Op.startOp ⟨.pomodoro, 1500⟩ 1000,
      Op.updateOp ⟨true, 9 / 10⟩ 2000] init).sessionActive = true ∧
    sumAcc (run [Op.startOp ⟨.pomodoro, 1500⟩ 1000,
      Op.updateOp ⟨true, 9 / 10⟩ 2000] init) = 1 ∧
    (10000 - 1000 : ℚ) / 1000 = 9 ∧
    (9 : ℚ) - sumAcc (run [Op.startOp ⟨.pomodoro, 1500⟩ 1000,
      Op.updateOp ⟨true, 9 / 10⟩ 2000] init) = 8 ∧
    (9 : ℚ) / 1000000 < 8 := by decide!

/-- C2: on every updateFocusState call in an active session with a truthy
prior timestamp, the time delta (now − lastUpdateTime) / 1000 is credited to
exactly the accumulator matching the classification held before the update
(the other two are unchanged), the sum grows by exactly that delta, the
stored classification becomes the one computed from the event, and — because
startSession resets the classification to away — the first update after a
start credits its whole delta to awayTime regardless of the event. -/
theorem prior_state_attribution (s : Tracker) (e : DetectionEvent) (now tl : ℚ)
    (hact : s.sessionActive = true) (hl : s.lastUpdateTime = some tl)
    (h0 : tl ≠ 0) (hlt : tl < now) :
    0 < (now - tl) / 1000 ∧
    sumAcc (updateStep e now s) = sumAcc s + (now - tl) / 1000 ∧
    (s.currentState = .focused →
      (updateStep e now s).focusedTime = s.focusedTime + (now - tl) / 1000 ∧
      (updateStep e now s).distractedTime = s.distractedTime ∧
      (updateStep e now s).awayTime = s.awayTime) ∧
    (s.currentState = .distracted →
      (updateStep e now s).distractedTime = s.distractedTime + (now - tl) / 1000 ∧
      (updateStep e now s).focusedTime = s.focusedTime ∧
      (updateStep e now s).awayTime = s.awayTime) ∧
    (s.currentState = .away →
      (updateStep e now s).awayTime = s.awayTime + (now - tl) / 1000 ∧
      (updateStep e now s).focusedTime = s.focusedTime ∧
      (updateStep e now s).distractedTime = s.distractedTime) ∧
    (updateStep e now s).currentState = classify e ∧
    (updateStep e now s).lastUpdateTime = some now ∧
    (∀ (cfg : SessionConfig) (now0 : ℚ) (s0 : Tracker) (e1 : DetectionEvent)
        (now1 : ℚ), now0 ≠ 0 →
      (updateStep e1 now1 (startStep cfg now0 s0)).awayTime =
        (startStep cfg now0 s0).awayTime + (now1 - now0) / 1000 ∧
      (updateStep e1 now1 (startStep cfg now0 s0)).focusedTime =
        (startStep cfg now0 s0).focusedTime ∧
      (updateStep e1 now1 (startStep cfg now0 s0)).distractedTime =
        (startStep cfg now0 s0).distractedTime) := by
  have hgo := updateStep_go e now s tl hl hact h0
  refine ⟨div_pos (sub_pos.mpr hlt) (by norm_num), ?_, ?_, ?_, ?_, ?_, ?_, ?_⟩
  · rw [hgo]
    have : sumAcc { awayNotify (classify e) now
        (credit s.currentState ((now - tl) / 1000) s) with
        currentState := classify e, lastUpdateTime := some now } =
        sumAcc (credit s.currentState ((now - tl) / 1000) s) := by
      simp [sumAcc]
    rw [this, sumAcc_credit]
  · intro hcs; rw [hgo]; refine ⟨?_, ?_, ?_⟩ <;> simp [credit, hcs]
  · intro hcs; rw [hgo]; refine ⟨?_, ?_, ?_⟩ <;> simp [credit, hcs]
  · intro hcs; rw [hgo]; refine ⟨?_, ?_, ?_⟩ <;> simp [credit, hcs]
  · rw [hgo]
  · rw [hgo]
  · intro cfg now0 s0 e1 now1 hn0
    have hgo2 := updateStep_go e1 now1 (startStep cfg now0 s0) now0 rfl rfl hn0
    rw [hgo2]
    refine ⟨?_, ?_, ?_⟩ <;> simp [credit, startStep]

/-- Witness for C2: an update at instant 3000 on an active state whose prior
classification is focused and whose last update was at instant 1000 adds two
seconds to focusedTime and leaves the other buckets unchanged. -/
theorem prior_state_attribution_witness :
    (updateStep ⟨true, 1 / 2⟩ 3000
      { init with
        sessionActive := true
        lastUpdateTime := some 1000
        currentState := .focused
        focusedTime := 5 }).focusedTime = (5 : ℚ) + (3000 - 1000) / 1000 ∧
    (updateStep ⟨true, 1 / 2⟩ 3000
      { init with
        sessionActive := true
        lastUpdateTime := some 1000
        currentState := .focused
        focusedTime := 5 }).distractedTime = 0 ∧
    (updateStep ⟨true, 1 / 2⟩ 3000
      { init with
        sessionActive := true
        lastUpdateTime := some 1000
        currentState := .focused
        focusedTime := 5 }).awayTime = 0 := by
  have h := (prior_state_attribution
    { init with
      sessionActive := true
      lastUpdateTime := some 1000
      currentState := .focused
      focusedTime := 5 }
    ⟨true, 1 / 2⟩ 3000 1000 rfl rfl (by norm_num) (by norm_num)).2.2.1 rfl
  exact ⟨h.1, by rw [h.2.1]; decide!, by rw [h.2.2]; decide!⟩

/-- C4, amended: starting a 3-second session and delivering three interval
callbacks takes remainingTime through 3, 2, 1, 0, fires exactly one
session-complete notification and exactly one stopSession, deactivates the
session and cancels the armed interval, so a further callback delivery is a
no-op.  (The callback itself has no terminal guard: delivered with
remainingTime already 0 — possible through an interval leaked by a
re-entrant start — it fires the completion again; see the counterexample.) -/
theorem countdown_termination :
    (run [Op.startOp ⟨.custom, 3⟩ 1000] init).remainingTime = 3 ∧
    (run [Op.startOp ⟨.custom, 3⟩ 1000, Op.tickOp] init).remainingTime = 2 ∧
    (run [Op.startOp ⟨.custom, 3⟩ 1000, Op.tickOp, Op.tickOp] init).remainingTime = 1 ∧
    (run [Op.startOp ⟨.custom, 3⟩ 1000, Op.tickOp, Op.tickOp, Op.tickOp]
      init).remainingTime = 0 ∧
    countComplete (run [Op.startOp ⟨.custom, 3⟩ 1000, Op.tickOp, Op.tickOp,
      Op.tickOp] init).events = 1 ∧
    countStop (run [Op.startOp ⟨.custom, 3⟩ 1000, Op.tickOp, Op.tickOp,
      Op.tickOp] init).events = 1 ∧
    (run [Op.startOp ⟨.custom, 3⟩ 1000, Op.tickOp, Op.tickOp, Op.tickOp]
      init).sessionActive = false ∧
    (run [Op.startOp ⟨.custom, 3⟩ 1000, Op.tickOp, Op.tickOp, Op.tickOp]
      init).liveTickIntervals = 0 ∧
    tickStep (run [Op.startOp ⟨.custom, 3⟩ 1000, Op.tickOp, Op.tickOp, Op.tickOp]
      init) =
      run [Op.startOp ⟨.custom, 3⟩ 1000, Op.tickOp, Op.tickOp, Op.tickOp] init := by
  decide!

/-- C4 counterexample: after a re-entrant start the first session interval
is leaked and keeps firing; once the countdown reaches 0 (after three
callbacks), a fourth callback runs with remainingTime 0 and the
session-complete notification fires a second time — there is no idempotent
terminal guard. -/
theorem countdown_refires_cex :
    (run [Op.startOp ⟨.custom, 3⟩ 1000, Op.startOp ⟨.custom, 3⟩ 2000,
      Op.tickOp, Op.tickOp, Op.tickOp] init).remainingTime = 0 ∧
    (run [Op.startOp ⟨.custom, 3⟩ 1000, Op.startOp ⟨.custom, 3⟩ 2000,
      Op.tickOp, Op.tickOp, Op.tickOp] init).liveTickIntervals = 1 ∧
    countComplete (run [Op.startOp ⟨.custom, 3⟩ 1000, Op.startOp ⟨.custom, 3⟩ 2000,
      Op.tickOp, Op.tickOp, Op.tickOp] init).events = 1 ∧
    countComplete (run [Op.startOp ⟨.custom, 3⟩ 1000, Op.startOp ⟨.custom, 3⟩ 2000,
      Op.tickOp, Op.tickOp, Op.tickOp, Op.tickOp] init).events = 2 := by
  decide!

/-- C5: classification of a detection event is away when no face is
detected, focused when a face is detected with confidence at least 0.6
(inclusive bound: confidence exactly 0.6 is focused, 0.599999 is
distracted), and distracted otherwise. -/
theorem classification_rule :
    (∀ e : DetectionEvent, e.faceDetected = false → classify e = .away) ∧
    (∀ e : DetectionEvent, e.faceDetected = true → 6 / 10 ≤ e.confidence →
      classify e = .focused) ∧
    (∀ e : DetectionEvent, e.faceDetected = true → e.confidence < 6 / 10 →
      classify e = .distracted) ∧
    classify ⟨true, 6 / 10⟩ = .focused ∧
    classify ⟨true, 599999 / 1000000⟩ = .distracted := by
  refine ⟨?_, ?_, ?_, by decide!, by decide!⟩
  · intro e h; simp [classify, h]
  · intro e h h2; simp [classify, h, h2]
  · intro e h h2; simp [classify, h, not_le.mpr h2]

/-- Witness for C5: concrete classifications on each side of the rule. -/
theorem classification_rule_witness :
    classify ⟨false, 1⟩ = .away ∧ classify ⟨true, 8 / 10⟩ = .focused ∧
      classify ⟨true, 1 / 2⟩ = .distracted :=
  ⟨classification_rule.1 ⟨false, 1⟩ rfl,
   classification_rule.2.1 ⟨true, 8 / 10⟩ rfl (by norm_num),
   classification_rule.2.2.1 ⟨true, 1 / 2⟩ rfl (by norm_num)⟩

/-- C7, amended: a startSession issued while a session is active resets
every snapshot-visible field to exactly the same values as stopping and then
starting with the same configuration (all accumulators 0, classification
away); but the two paths are NOT identical as runtime states: the re-entrant
start overwrites the interval refs without clearing them, leaving two live
tick intervals and two live water intervals where stop-then-start leaves
one of each — timers stack. -/
theorem restart_resets_fields_but_stacks_timers (cfg : SessionConfig)
    (t0 t1 : ℚ) (s : Tracker) :
    visible (startStep cfg t1 (startStep cfg t0 s)) =
      visible (startStep cfg t1 (stopStep (startStep cfg t0 s))) ∧
    (startStep cfg t1 (startStep cfg t0 s)).liveTickIntervals =
      s.liveTickIntervals + 2 ∧
    (startStep cfg t1 (stopStep (startStep cfg t0 s))).liveTickIntervals =
      s.liveTickIntervals + 1 ∧
    (startStep cfg t1 (startStep cfg t0 s)).liveWaterIntervals =
      s.liveWaterIntervals + 2 ∧
    (startStep cfg t1 (stopStep (startStep cfg t0 s))).liveWaterIntervals =
      s.liveWaterIntervals + 1 := by
  refine ⟨?_, ?_, ?_, ?_, ?_⟩ <;> simp [visible, startStep, stopStep]

/-- C7 counterexample: a double start leaves two live 1 Hz intervals while
stop-then-start leaves one, so the resulting tracker states are not
identical and timers are stacked by the re-entrant start. -/
theorem restart_stacks_timers_cex :
    (run [Op.startOp ⟨.pomodoro, 1500⟩ 1000, Op.startOp ⟨.pomodoro, 1500⟩ 2000]
      init).liveTickIntervals = 2 ∧
    (run [Op.startOp ⟨.pomodoro, 1500⟩ 1000, Op.stopOp,
      Op.startOp ⟨.pomodoro, 1500⟩ 2000] init).liveTickIntervals = 1 ∧
    (run [Op.startOp ⟨.pomodoro, 1500⟩ 1000, Op.startOp ⟨.pomodoro, 1500⟩ 2000]
        init).liveTickIntervals ≠
      (run [Op.startOp ⟨.pomodoro, 1500⟩ 1000, Op.stopOp,
        Op.startOp ⟨.pomodoro, 1500⟩ 2000] init).liveTickIntervals := by
  decide!

/-- C9, amended: in a 60-second session during which updateFocusState is
never called, no time is attributed to ANY accumulator — awayTime stays 0
(accumulation happens only inside updateFocusState), as do focusedTime and
distractedTime; the classification stays away, the session is still active
after 59 interval callbacks with remainingTime 1, and the 60th callback
completes it: exactly one session-complete notification, one stopSession,
remainingTime 0, sessionDuration 60.  The original claim that the elapsed
time is attributed to awayTime fails; see the counterexample. -/
theorem no_events_scenario :
    (run (Op.startOp ⟨.custom, 60⟩ 1000 :: List.replicate 59 Op.tickOp)
      init).sessionActive = true ∧
    (run (Op.startOp ⟨.custom, 60⟩ 1000 :: List.replicate 59 Op.tickOp)
      init).remainingTime = 1 ∧
    (run (Op.startOp ⟨.custom, 60⟩ 1000 :: List.replicate 60 Op.tickOp)
      init).sessionActive = false ∧
    (run (Op.startOp ⟨.custom, 60⟩ 1000 :: List.replicate 60 Op.tickOp)
      init).remainingTime = 0 ∧
    (run (Op.startOp ⟨.custom, 60⟩ 1000 :: List.replicate 60 Op.tickOp)
      init).sessionDuration = 60 ∧
    (run (Op.startOp ⟨.custom, 60⟩ 1000 :: List.replicate 60 Op.tickOp)
      init).focusedTime = 0 ∧
    (run (Op.startOp ⟨.custom, 60⟩ 1000 :: List.replicate 60 Op.tickOp)
      init).distractedTime = 0 ∧
    (run (Op.startOp ⟨.custom, 60⟩ 1000 :: List.replicate 60 Op.tickOp)
      init).awayTime = 0 ∧
    (run (Op.startOp ⟨.custom, 60⟩ 1000 :: List.replicate 60 Op.tickOp)
      init).currentState = .away ∧
    countComplete (run (Op.startOp ⟨.custom, 60⟩ 1000 ::
      List.replicate 60 Op.tickOp) init).events = 1 ∧
    countStop (run (Op.startOp ⟨.custom, 60⟩ 1000 ::
      List.replicate 60 Op.tickOp) init).events = 1 := by
  decide!

/-- C9 counterexample: with no detection events, after the 60 callbacks the
session has auto-stopped with sessionDuration 60 but awayTime is 0, not the
60 elapsed seconds the claim attributes to it. -/
theorem no_events_away_attribution_cex :
    (run (Op.startOp ⟨.custom, 60⟩ 1000 :: List.replicate 60 Op.tickOp)
      init).sessionDuration = 60 ∧
    (run (Op.startOp ⟨.custom, 60⟩ 1000 :: List.replicate 60 Op.tickOp)
      init).awayTime = 0 ∧
    (run (Op.startOp ⟨.custom, 60⟩ 1000 :: List.replicate 60 Op.tickOp)
      init).awayTime ≠ 60 := by
  decide!

/-- C3: during an active session an updateFocusState call emits a come-back
notification exactly under the comeBackFires condition (open away period,
away classification, at least 10 seconds elapsed in the period, notification
not yet shown); no notification can fire within the first 10 seconds of an
away period; a non-away update closes the period and clears the shown flag;
and in the two spec scenarios — a 15-second away stream at 100 ms spacing,
and two ten-plus-second away periods separated by a face-detected event —
exactly one, and exactly two, notifications fire (none by the 10-second
mark of the stream). -/
theorem away_debounce :
    (∀ (e : DetectionEvent) (now : ℚ) (s : Tracker),
      (updateStep e now s).events =
        if comeBackFires e now s then Evt.comeBack now :: s.events
        else s.events) ∧
    (∀ (e : DetectionEvent) (now t0 : ℚ) (s : Tracker),
      s.awayStartTime = some t0 → now - t0 < 10000 →
      countComeBack (updateStep e now s).events = countComeBack s.events) ∧
    (∀ (e : DetectionEvent) (now tl : ℚ) (s : Tracker),
      s.sessionActive = true → s.lastUpdateTime = some tl → tl ≠ 0 →
      classify e ≠ .away →
      (updateStep e now s).awayStartTime = none ∧
      (updateStep e now s).awayNotificationShown = false) ∧
    countComeBack (run (Op.startOp ⟨.pomodoro, 1500⟩ 1000 ::
      awayStream 1000 100 100) init).events = 0 ∧
    countComeBack (run (Op.startOp ⟨.pomodoro, 1500⟩ 1000 ::
      awayStream 1000 100 150) init).events = 1 ∧
    countComeBack (run [Op.startOp ⟨.pomodoro, 1500⟩ 1000,
      Op.updateOp ⟨false, 0⟩ 2000, Op.updateOp ⟨false, 0⟩ 13000,
      Op.updateOp ⟨true, 9 / 10⟩ 14000, Op.updateOp ⟨false, 0⟩ 15000,
      Op.updateOp ⟨false, 0⟩ 26000] init).events = 2 := by
  refine ⟨updateStep_events_eq, ?_, ?_, by decide!, by decide!, by decide!⟩
  · intro e now t0 s ha hlt
    have hff : comeBackFires e now s = false := by
      cases hl : s.lastUpdateTime with
      | none => simp [comeBackFires, hl]
      | some tl =>
        simp only [comeBackFires, hl, ha]
        apply decide_eq_false
        rintro ⟨-, -, -, -, hge, -⟩
        have h10 : (now - t0) / 1000 < 10 := by
          rw [div_lt_iff₀ (by norm_num : (0 : ℚ) < 1000)]
          linarith
        linarith
    rw [updateStep_events_eq, hff]
    simp
  · intro e now tl s hact hl h0 hcls
    rw [updateStep_go e now s tl hl hact h0]
    constructor <;> simp [awayNotify, hcls]

/-- Witness for C3: an away update arriving half a second into an open away
period emits no notification. -/
theorem away_debounce_witness :
    countComeBack (updateStep ⟨false, 0⟩ 2500
      { init with
        sessionActive := true
        lastUpdateTime := some 1000
        awayStartTime := some 2000 }).events =
      countComeBack ({ init with
        sessionActive := true
        lastUpdateTime := some 1000
        awayStartTime := some 2000 } : Tracker).events :=
  away_debounce.2.1 ⟨false, 0⟩ 2500 2000
    { init with
      sessionActive := true
      lastUpdateTime := some 1000
      awayStartTime := some 2000 }
    rfl (by norm_num)

/-- C6, amended: focusScore is nonnegative in every state reachable by a
run with nondecreasing clock values, and equals 0 whenever sessionDuration
is 0.  The upper bound of 100 does NOT hold: focusedTime accrues real-valued
wall-clock deltas while sessionDuration counts 1 Hz interval callbacks, so
states between callbacks can score above 100 (see the counterexample). -/
theorem focus_score_nonneg_and_zero (ops : List Op)
    (hv : validFrom 0 ops = true) :
    0 ≤ focusScore (run ops init) ∧
    ((run ops init).sessionDuration = 0 → focusScore (run ops init) = 0) := by
  have h := nonneg_run ops 0 init hv (le_refl 0) (le_refl 0) (le_refl 0)
    (by intro tl hl; simp [init] at hl)
  constructor
  · by_cases hd : 0 < (run ops init).sessionDuration
    · rw [focusScore, if_pos hd]
      exact mul_nonneg (div_nonneg h.1 (Nat.cast_nonneg _)) (by norm_num)
    · rw [focusScore, if_neg hd]
  · intro hd
    rw [focusScore, if_neg (by omega)]

/-- Witness for C6: the score of a clock-monotone two-operation run is
nonnegative. -/
theorem focus_score_nonneg_and_zero_witness :
    0 ≤ focusScore (run [Op.startOp ⟨.pomodoro, 1500⟩ 1000,
      Op.updateOp ⟨true, 9 / 10⟩ 2000] init) ∧
    ((run [Op.startOp ⟨.pomodoro, 1500⟩ 1000,
        Op.updateOp ⟨true, 9 / 10⟩ 2000] init).sessionDuration = 0 →
      focusScore (run [Op.startOp ⟨.pomodoro, 1500⟩ 1000,
        Op.updateOp ⟨true, 9 / 10⟩ 2000] init) = 0) :=
  focus_score_nonneg_and_zero
    [Op.startOp ⟨.pomodoro, 1500⟩ 1000, Op.updateOp ⟨true, 9 / 10⟩ 2000]
    (by decide!)

/-- C6 counterexample: a clock-monotone run — start at instant 1000, a
focused update at 1100, one interval callback, and a focused update at
2999 — reaches a state scoring 189.9, above 100. -/
theorem focus_score_exceeds_100_cex :
    validFrom 0 [Op.startOp ⟨.pomodoro, 1500⟩ 1000,
      Op.updateOp ⟨true, 9 / 10⟩ 1100, Op.tickOp,
      Op.updateOp ⟨true, 9 / 10⟩ 2999] = true ∧
    focusScore (run [Op.startOp ⟨.pomodoro, 1500⟩ 1000,
      Op.updateOp ⟨true, 9 / 10⟩ 1100, Op.tickOp,
      Op.updateOp ⟨true, 9 / 10⟩ 2999] init) = 1899 / 10 ∧
    (100 : ℚ) < focusScore (run [Op.startOp ⟨.pomodoro, 1500⟩ 1000,
      Op.updateOp ⟨true, 9 / 10⟩ 1100, Op.tickOp,
      Op.updateOp ⟨true, 9 / 10⟩ 2999] init) := by
  decide!

/-- C8, amended: the custom-duration submit handler validates by JavaScript
parseInt semantics: an input whose leading decimal-integer parse fails or
yields a value below 1 is rejected with the minimum-duration error, a parse
above 180 is rejected with the maximum-duration error, and a parse m in
[1, 180] calls onSelect with a custom session of m * 60 seconds.  The
acceptance predicate is on the parsed leading integer, not on the input
being an integer numeral: decimal inputs such as "12.5" are accepted as
their integer part (see the counterexample). -/
theorem custom_duration_validation (input : String) :
    (parseIntTen input = none →
      handleCustomSubmit input =
        .rejected "Please enter a valid duration (minimum 1 minute)") ∧
    (∀ m : ℤ, parseIntTen input = some m → m < 1 →
      handleCustomSubmit input =
        .rejected "Please enter a valid duration (minimum 1 minute)") ∧
    (∀ m : ℤ, parseIntTen input = some m → 180 < m →
      handleCustomSubmit input =
        .rejected "Maximum duration is 180 minutes (3 hours)") ∧
    (∀ m : ℤ, parseIntTen input = some m → 1 ≤ m → m ≤ 180 →
      handleCustomSubmit input = .accepted .custom (m * 60)) := by
  refine ⟨?_, ?_, ?_, ?_⟩
  · intro h; simp [handleCustomSubmit, h]
  · intro m h hm; simp [handleCustomSubmit, h, hm]
  · intro m h hm
    simp [handleCustomSubmit, h, show ¬m < 1 by omega, hm]
  · intro m h h1 h180
    simp [handleCustomSubmit, h, show ¬m < 1 by omega, show ¬180 < m by omega]

/-- Witness for C8: the input "30" is accepted as a 1800-second custom
session. -/
theorem custom_duration_validation_witness :
    handleCustomSubmit "30" = .accepted .custom (30 * 60) :=
  (custom_duration_validation "30").2.2.2 30 (by decide!) (by norm_num)
    (by norm_num)

/-- C8 counterexample: the non-integer input "12.5" parses to 12 and is
accepted — onSelect is called with a 720-second session — contradicting the
claim that every non-integer input is rejected with no onSelect call. -/
theorem custom_duration_decimal_accepted_cex :
    parseIntTen "12.5" = some 12 ∧
    handleCustomSubmit "12.5" = .accepted .custom 720 := by
  decide!

/-- C10: for every identical sequence of startSession and updateFocusState
calls with shared clock values, the early hook and the later hook produce
equal focusedTime, distractedTime and awayTime, and equal focus scores: the
countdown and notification additions of the later version do not change the
accumulation semantics. -/
theorem early_later_hook_equiv (ops : List SOp) :
    (runEarly ops einit).focusedTime = (runLater ops init).focusedTime ∧
    (runEarly ops einit).distractedTime = (runLater ops init).distractedTime ∧
    (runEarly ops einit).awayTime = (runLater ops init).awayTime ∧
    earlyScore (runEarly ops einit) = focusScore (runLater ops init) := by
  have h : Agrees (runEarly ops einit) (runLater ops init) :=
    agrees_run ops einit init (by simp [Agrees, einit, init])
  obtain ⟨hA, hD, hF, hDi, hAw, hC, hL⟩ := h
  refine ⟨hF, hDi, hAw, ?_⟩
  rw [earlyScore, focusScore, hD, hF]

end FocusGuard
